import Mathlib

/-!
Shallow embedding of the core of the `local-agent` repository:
the multi-step task continuation state machine (`src/tasks/task-manager.ts`),
the conversation context builder (`runInteractiveSession` in the interaction
module), and the model-provider selection layer
(`ProviderFactory` in `src/providers`).

JavaScript strings are modelled as `List Char` (`Str`); `String.prototype`
operations used by the source (`includes`, `toLowerCase`, `toUpperCase`,
`split`, `trim`, `replace` with the one fixed regex the source uses) are
given explicit executable definitions below.
-/

namespace LocalAgent

/-- JavaScript strings, modelled as lists of characters. -/
abbrev Str := List Char

/-- Make a `Str` from a Lean string literal. -/
def str (s : String) : Str := s.data

/-- JS `s.toLowerCase()` (ASCII-level, as exercised by the source's patterns). -/
def toLower (s : Str) : Str := s.map Char.toLower

/-- JS `s.toUpperCase()`. -/
def toUpper (s : Str) : Str := s.map Char.toUpper

/-- Does `s` start with `pat`? (building block for `includes`). -/
def startsWith : Str → Str → Bool
  | _, [] => true
  | [], _ :: _ => false
  | c :: cs, p :: ps => c == p && startsWith cs ps

/-- JS `s.includes(pat)`: `pat` occurs as a contiguous substring of `s`. -/
def strIncludes : Str → Str → Bool
  | [], pat => startsWith [] pat
  | c :: cs, pat => startsWith (c :: cs) pat || strIncludes cs pat

/-- Case-insensitive prefix test (the source's regex is `/.../i`). -/
def startsWithCI (s pat : Str) : Bool := startsWith (toLower s) pat

/-- JS `s.split(sep)` for a single-character separator. -/
def splitOnChar (sep : Char) : Str → List Str
  | [] => [[]]
  | c :: cs =>
    let r := splitOnChar sep cs
    if c == sep then [] :: r
    else
      match r with
      | [] => [[c]]
      | h :: t => (c :: h) :: t

/-- JS `arr.join(sep)` for string arrays, single-character separator. -/
def joinChar (sep : Char) : List Str → Str
  | [] => []
  | [x] => x
  | x :: y :: xs => x ++ sep :: joinChar sep (y :: xs)

/-- JS `arr.join(sep)` for a string separator (used with `', '`). -/
def joinStr (sep : Str) : List Str → Str
  | [] => []
  | [x] => x
  | x :: y :: xs => x ++ sep ++ joinStr sep (y :: xs)

/-- Leading-whitespace strip (building block for JS `trim`). -/
def trimLeft : Str → Str
  | [] => []
  | c :: cs => if c.isWhitespace then trimLeft cs else c :: cs

/-- JS `s.trim()`. -/
def trim (s : Str) : Str := ((trimLeft ((trimLeft s).reverse)).reverse)

/-! Task state machine (`src/tasks/task-state.ts`, `src/tasks/task-manager.ts`). -/

/-- The `TaskState` enum of `task-state.ts`. -/
inductive TaskState where
  | IDLE
  | STARTING
  | IN_PROGRESS
  | AWAITING_TOOL
  | COMPLETED
  | FAILED
deriving DecidableEq

/-- The mutable fields of the `TaskManager` class. The pattern registries and
the two numeric limits are never mutated by the code under consideration and
are modelled as the constants below. -/
structure TaskManager where
  state : TaskState
  taskDescription : Str
  completedSteps : List Str
  nextSteps : List Str
  toolsUsed : List Str
  stepCount : Nat
  lastResponseWithoutTools : Nat
deriving DecidableEq

/-- Field initializer values of the `TaskManager` class. -/
def initialTaskManager : TaskManager :=
  { state := TaskState.IDLE
    taskDescription := []
    completedSteps := []
    nextSteps := []
    toolsUsed := []
    stepCount := 0
    lastResponseWithoutTools := 0 }

/-- Source: `private maxSteps: number = 20`. -/
def maxSteps : Nat := 20

/-- Source: `private maxResponsesWithoutTools: number = 3`. -/
def maxResponsesWithoutTools : Nat := 3

/-- Source: `private continuationPatterns` initializer. -/
def continuationPatterns : List Str :=
  [str "created folder", str "created directory", str "made folder",
   str "next step", str "continue", str "now i will", str "now i need to",
   str "partially complete", str "still need", str "remaining",
   str "created basic", str "initial setup", str "first step",
   str "proceeding", str "moving on", str "next logical step",
   str "will now", str "let me", str "i will create", str "i will add",
   str "setting up", str "configuring", str "installing",
   str "let me now", str "i should", str "i need to"]

/-- Source: `private completionPatterns` initializer. -/
def completionPatterns : List Str :=
  [str "task complete", str "finished", str "done", str "ready to use",
   str "fully functional", str "all files created", str "project is complete",
   str "successfully created", str "everything is set up",
   str "application is now ready", str "setup is complete",
   str "all necessary files", str "ready to run", str "task is now complete",
   str "have successfully", str "is now fully", str "completed the",
   str "you can now", str "everything needed", str "all set up"]

/-- Source: `private stoppingPatterns` initializer. -/
def stoppingPatterns : List Str :=
  [str "that completes", str "this finishes", str "no further steps",
   str "that\x27s all", str "nothing more", str "all done",
   str "no additional", str "task finished", str "work is complete"]

/-- Source: `private continuationTools` initializer. -/
def continuationTools : List Str :=
  [str "create_directory", str "write_file", str "edit_file"]

/-- Source: `isMultiStepTask(prompt)`. -/
def isMultiStepTask (prompt : Str) : Bool :=
  let multiStepKeywords :=
    [str "create", str "build", str "setup", str "make", str "develop",
     str "implement", str "generate", str "react app", str "project",
     str "application", str "website", str "api", str "server",
     str "all files", str "complete", str "full", str "entire", str "whole"]
  let lowerPrompt := toLower prompt
  multiStepKeywords.any (fun keyword => strIncludes lowerPrompt keyword)

/-- Source: `private analyzeTaskRequirements(description)`. -/
def analyzeTaskRequirements (tm : TaskManager) (description : Str) : TaskManager :=
  let lowerDesc := toLower description
  if strIncludes lowerDesc (str "create") &&
     (strIncludes lowerDesc (str "project") || strIncludes lowerDesc (str "application")) then
    { tm with nextSteps :=
        [str "Create project directory",
         str "Initialize configuration files",
         str "Set up basic structure",
         str "Install dependencies"] }
  else tm

/-- Source: `resetTask()`. -/
def resetTask (tm : TaskManager) : TaskManager :=
  { tm with
    state := TaskState.IDLE
    taskDescription := []
    completedSteps := []
    nextSteps := []
    toolsUsed := []
    stepCount := 0
    lastResponseWithoutTools := 0 }

/-- Source: `startTask(description)`. -/
def startTask (tm : TaskManager) (description : Str) : TaskManager :=
  let tm1 := if tm.state ≠ TaskState.IDLE then resetTask tm else tm
  let tm2 := { tm1 with
    taskDescription := description
    state := TaskState.STARTING
    stepCount := 0 }
  let tm3 := analyzeTaskRequirements tm2 description
  { tm3 with state := TaskState.IN_PROGRESS }

/-- Source: `recordToolUse(toolName, result)` (the `result` argument is unused by the source). -/
def recordToolUse (tm : TaskManager) (toolName : Str) : TaskManager :=
  let tm1 := { tm with toolsUsed := tm.toolsUsed ++ [toolName] }
  if tm1.state = TaskState.IN_PROGRESS then { tm1 with state := TaskState.AWAITING_TOOL } else tm1

/-- Source: `private extractAccomplishment(response)`. -/
def extractAccomplishment (response : Str) : Option Str :=
  (splitOnChar '\n' response).find? (fun line =>
    let lowerLine := toLower line
    strIncludes lowerLine (str "created") || strIncludes lowerLine (str "added") ||
    strIncludes lowerLine (str "installed") || strIncludes lowerLine (str "configured"))

/-- JS `line.replace(/next step:?|next, i will/i, '')`: drop the first
(leftmost, case-insensitive) occurrence of `next step` with an optional `:`
(greedy, first alternative) or of `next, i will`. -/
def replaceNextMarker : Str → Str
  | [] => []
  | c :: cs =>
    if startsWithCI (c :: cs) (str "next step") then
      if startsWithCI (List.drop 9 (c :: cs)) (str ":") then List.drop 10 (c :: cs)
      else List.drop 9 (c :: cs)
    else if startsWithCI (c :: cs) (str "next, i will") then List.drop 12 (c :: cs)
    else c :: replaceNextMarker cs

/-- Source: `private extractNextSteps(response)`: a fold over the lines carrying the
`steps` accumulator and the `nextStepSection` flag. -/
def extractNextSteps (response : Str) : List Str :=
  let f := fun (acc : List Str × Bool) (line : Str) =>
    let steps := acc.1
    let nextStepSection := acc.2
    let lowerLine := toLower line
    if strIncludes lowerLine (str "next step") || strIncludes lowerLine (str "next, i will") then
      (steps ++ [trim (replaceNextMarker line)], true)
    else
      let steps2 :=
        if nextStepSection && !(trim lowerLine).isEmpty && !(strIncludes lowerLine (str "done"))
        then steps ++ [trim line] else steps
      let sec2 :=
        if nextStepSection && (strIncludes lowerLine (str "done") || decide (lowerLine.length = 0))
        then false else nextStepSection
      (steps2, sec2)
  ((splitOnChar '\n' response).foldl f ([], false)).1

/-- Source: `private hasContinuationIndicators(response)`. -/
def hasContinuationIndicators (response : Str) : Bool :=
  let lowerResponse := toLower response
  continuationPatterns.any (fun pattern => strIncludes lowerResponse pattern)

/-- The `taskDescription` test of `isTaskComplete`: description mentions
`create`, `build` or `setup`. -/
def isProjectTaskDesc (desc : Str) : Bool :=
  strIncludes (toLower desc) (str "create") ||
  strIncludes (toLower desc) (str "build") ||
  strIncludes (toLower desc) (str "setup")

/-- First project-completion indicator of `isTaskComplete`: `package.json`
created/ready with no `will`/`next` in the response. -/
def packageJsonReady (lowerResponse : Str) : Bool :=
  strIncludes lowerResponse (str "package.json") &&
  (strIncludes lowerResponse (str "created") || strIncludes lowerResponse (str "ready")) &&
  !(strIncludes lowerResponse (str "will")) &&
  !(strIncludes lowerResponse (str "next"))

/-- Second project-completion indicator of `isTaskComplete`: the response
mentions running/testing via a package manager. -/
def mentionsRunningApp (lowerResponse : Str) : Bool :=
  (strIncludes lowerResponse (str "run") || strIncludes lowerResponse (str "test") ||
   strIncludes lowerResponse (str "start")) &&
  (strIncludes lowerResponse (str "npm") || strIncludes lowerResponse (str "bun") ||
   strIncludes lowerResponse (str "yarn"))

/-- Final-instructions indicator of `isTaskComplete`. -/
def finalInstructionHint (lowerResponse : Str) : Bool :=
  strIncludes lowerResponse (str "you can") || strIncludes lowerResponse (str "to run") ||
  strIncludes lowerResponse (str "to start") || strIncludes lowerResponse (str "to test")

/-- Source: `private isTaskComplete(response)`. -/
def isTaskComplete (tm : TaskManager) (response : Str) : Bool :=
  let lowerResponse := toLower response
  if completionPatterns.any (fun pattern => strIncludes lowerResponse pattern) then true
  else if stoppingPatterns.any (fun pattern => strIncludes lowerResponse pattern) then true
  else if isProjectTaskDesc tm.taskDescription && packageJsonReady lowerResponse then true
  else if isProjectTaskDesc tm.taskDescription && mentionsRunningApp lowerResponse then true
  else if decide (0 < tm.completedSteps.length) && !(hasContinuationIndicators response) &&
          !(strIncludes lowerResponse (str "will")) && !(strIncludes lowerResponse (str "next")) &&
          finalInstructionHint lowerResponse then true
  else false

/-- Source: `private completeTask()`. -/
def completeTask (tm : TaskManager) : TaskManager :=
  { tm with state := TaskState.COMPLETED }

/-- Source: `forceComplete(reason?)` (the console output is I/O only). -/
def forceComplete (tm : TaskManager) : TaskManager :=
  { tm with state := TaskState.COMPLETED }

/-- Source: `private updateTaskProgress(response, toolUsed)`. -/
def updateTaskProgress (tm : TaskManager) (response : Str) (_toolUsed : Option Str) : TaskManager :=
  let tm1 :=
    match extractAccomplishment response with
    | some accomplishment =>
      let tmA := { tm with completedSteps := tm.completedSteps ++ [accomplishment] }
      match tm.nextSteps.find? (fun step => strIncludes (toLower step) (toLower accomplishment)) with
      | some matchingNextStep =>
        { tmA with nextSteps := tmA.nextSteps.filter (fun step => decide (step ≠ matchingNextStep)) }
      | none => tmA
    | none => tm
  { tm1 with nextSteps := tm1.nextSteps ++ extractNextSteps response }

/-- Source: `processResponse(response, toolUsed?)`. -/
def processResponse (tm : TaskManager) (response : Str) (toolUsed : Option Str) : TaskManager :=
  let tm1 := if tm.state = TaskState.AWAITING_TOOL then { tm with state := TaskState.IN_PROGRESS } else tm
  let tm2 := { tm1 with stepCount := tm1.stepCount + 1 }
  let tm3 :=
    match toolUsed with
    | none => { tm2 with lastResponseWithoutTools := tm2.lastResponseWithoutTools + 1 }
    | some _ => { tm2 with lastResponseWithoutTools := 0 }
  if isTaskComplete tm3 response then completeTask tm3
  else if maxSteps ≤ tm3.stepCount then completeTask tm3
  else if maxResponsesWithoutTools ≤ tm3.lastResponseWithoutTools then completeTask tm3
  else updateTaskProgress tm3 response toolUsed

/-- The record returned by `getCompletionStatus()`. -/
structure CompletionStatus where
  isComplete : Bool
  reason : Option Str
  stepCount : Nat
deriving DecidableEq

/-- Source: `getCompletionStatus()`. -/
def getCompletionStatus (tm : TaskManager) : CompletionStatus :=
  if tm.state = TaskState.COMPLETED then
    { isComplete := true, reason := some (str "Task marked as complete"), stepCount := tm.stepCount }
  else if maxSteps ≤ tm.stepCount then
    { isComplete := true, reason := some (str "Reached maximum steps (20)"), stepCount := tm.stepCount }
  else if maxResponsesWithoutTools ≤ tm.lastResponseWithoutTools then
    { isComplete := true, reason := some (str "No tool usage for 3 responses"), stepCount := tm.stepCount }
  else
    { isComplete := false, reason := none, stepCount := tm.stepCount }

/-- Source: `shouldContinueAutomatically(response, toolUsed?)`. -/
def shouldContinueAutomatically (tm : TaskManager) (response : Str) (toolUsed : Option Str) : Bool :=
  if tm.state ≠ TaskState.IN_PROGRESS ∧ tm.state ≠ TaskState.AWAITING_TOOL then false
  else if maxSteps ≤ tm.stepCount ∨ maxResponsesWithoutTools ≤ tm.lastResponseWithoutTools then false
  else
    let lowerResponse := toLower response
    if stoppingPatterns.any (fun pattern => strIncludes lowerResponse pattern) then false
    else if isTaskComplete tm response then false
    else if (match toolUsed with
             | some t => continuationTools.any (fun tool => strIncludes t tool)
             | none => false) then true
    else if continuationPatterns.any (fun pattern => strIncludes lowerResponse pattern) then true
    else if (strIncludes (toLower tm.taskDescription) (str "create") ||
             strIncludes (toLower tm.taskDescription) (str "build")) &&
            decide (0 < tm.completedSteps.length) && decide (tm.completedSteps.length < 5) &&
            toolUsed.isSome then true
    else false

/-- Source: `isTaskActive()`. -/
def isTaskActive (tm : TaskManager) : Bool :=
  tm.state = TaskState.IN_PROGRESS || tm.state = TaskState.AWAITING_TOOL ||
  tm.state = TaskState.STARTING

/-- The `TaskContext` record of `task-state.ts`. -/
structure TaskContext where
  isMultiStep : Bool
  taskDescription : Str
  completedSteps : List Str
  nextSteps : List Str
  isComplete : Bool
deriving DecidableEq

/-- Source: `getTaskContext()`. -/
def getTaskContext (tm : TaskManager) : TaskContext :=
  { isMultiStep := isTaskActive tm
    taskDescription := tm.taskDescription
    completedSteps := tm.completedSteps
    nextSteps := tm.nextSteps
    isComplete := tm.state = TaskState.COMPLETED }

/-- Iteration helper: `n`-fold application of `processResponse` with a fixed response and tool. -/
def iterProcess (tm : TaskManager) (response : Str) (toolUsed : Option Str) : Nat → TaskManager
  | 0 => tm
  | n + 1 => processResponse (iterProcess tm response toolUsed n) response toolUsed

/-! Conversation context builder (`buildConversationContext` inside
`runInteractiveSession`). Timestamps are modelled as the string that
`Date.toLocaleTimeString()` renders to. -/

/-- One entry of `conversationHistory` (interface `ConversationMessage`). -/
structure ConversationMessage where
  role : Str
  content : Str
  timestamp : Str
  toolUsed : Option Str
deriving DecidableEq

/-- The lines the `forEach` body of `buildConversationContext` appends for one
message: `[time] ROLE: content` plus the optional `TOOL_USED` line. -/
def renderMessage (msg : ConversationMessage) : Str :=
  let timeStr := msg.timestamp
  let base := str "[" ++ timeStr ++ str "] " ++ toUpper msg.role ++ str ": " ++ msg.content ++ str "\n"
  match msg.toolUsed with
  | some t => base ++ str "[" ++ timeStr ++ str "] TOOL_USED: " ++ t ++ str "\n"
  | none => base

/-- The `CURRENT TASK CONTEXT` block appended when a task is active. -/
def taskContextBlock (tm : TaskManager) : Str :=
  if isTaskActive tm then
    let taskContext := getTaskContext tm
    str "\nCURRENT TASK CONTEXT:\n" ++
    str "Task: " ++ taskContext.taskDescription ++ str "\n" ++
    str "Completed Steps: " ++ joinStr (str ", ") taskContext.completedSteps ++ str "\n" ++
    str "Next Steps: " ++ joinStr (str ", ") taskContext.nextSteps ++ str "\n"
  else []

/-- Source: `buildConversationContext()`: empty history short-circuits to the empty
string; otherwise the last 10 messages (`slice(-10)`) are rendered oldest-first
and the task block is appended. -/
def buildConversationContext (history : List ConversationMessage) (tm : TaskManager) : Str :=
  if history.length = 0 then []
  else
    let recentHistory := history.drop (history.length - 10)
    let context := str "\n\nCONVERSATION HISTORY:\n"
    let context2 := recentHistory.foldl (fun ctx msg => ctx ++ renderMessage msg) context
    context2 ++ taskContextBlock tm

/-! Model provider selection layer (`src/providers`). The four registered
provider modules of `ProviderFactory.providerModules` are `openai`,
`anthropic`, `google` and `openrouter`; module resolution itself (a dynamic
`import` of a file that exists in the repository) is modelled as always
succeeding, so the `ProviderLoadFailure` catch-path is not represented. -/

/-- The four keys of `ProviderFactory.providerModules`. -/
inductive ProviderId where
  | openai
  | anthropic
  | google
  | openrouter
deriving DecidableEq

/-- Source: `ProviderFactory.providerModules` as a partial map from name to module. -/
def providerModules (name : Str) : Option ProviderId :=
  if name = str "openai" then some ProviderId.openai
  else if name = str "anthropic" then some ProviderId.anthropic
  else if name = str "google" then some ProviderId.google
  else if name = str "openrouter" then some ProviderId.openrouter
  else none

/-- A provider instance (`new module.default()`): its class plus the
`apiKey` field each concrete provider initializes to `null`. -/
structure AIProvider where
  id : ProviderId
  apiKey : Option Str
deriving DecidableEq

/-- Models `new module.default()`. -/
def newProvider (id : ProviderId) : AIProvider := { id := id, apiKey := none }

/-- The `ProviderError` class of `src/providers/types.ts`. -/
structure ProviderError where
  message : Str
  provider : Str
  recoverable : Bool
deriving DecidableEq

/-- Source: `ProviderFactory.providers`, the static name-to-instance cache.
Assignment is modelled by consing; `cacheLookup` observes the newest entry. -/
abbrev ProviderCache := List (Str × AIProvider)

/-- Truthy read `this.providers[normalizedName]`. -/
def cacheLookup : ProviderCache → Str → Option AIProvider
  | [], _ => none
  | (k, v) :: rest, n => if k = n then some v else cacheLookup rest n

/-- Every cached name has a registered module — true of every cache the
factory can actually build, since only successful resolutions are stored. -/
def CacheRegistered (cache : ProviderCache) : Prop :=
  ∀ kv ∈ cache, (providerModules kv.1).isSome = true

/-- Source: `ProviderFactory.getProvider(providerName)`: returns the provider handle
(or the `ProviderError` thrown) together with the cache after the call. -/
def getProvider (cache : ProviderCache) (providerName : Str) :
    Except ProviderError AIProvider × ProviderCache :=
  let normalizedName := toLower providerName
  match cacheLookup cache normalizedName with
  | some p => (Except.ok p, cache)
  | none =>
    match providerModules normalizedName with
    | none =>
      (Except.error
        { message := str "Unsupported AI provider: " ++ providerName
          provider := providerName
          recoverable := false }, cache)
    | some id =>
      let provider := newProvider id
      (Except.ok provider, (normalizedName, provider) :: cache)

/-- The record returned by `parseModelString`. -/
structure ParsedModel where
  provider : Str
  modelName : Str
deriving DecidableEq

/-- Source: `ProviderFactory.parseModelString(modelString)` (the spec's
`parseModelIdentifier`). `splitOnChar` never returns `[]`, so the `[]` match
arm below is unreachable and only satisfies exhaustiveness. -/
def parseModelString (modelString : Str) : ParsedModel :=
  if !(strIncludes modelString (str "/")) then
    { provider := str "openai", modelName := modelString }
  else
    match splitOnChar '/' modelString with
    | [] => { provider := str "openai", modelName := modelString }
    | provider :: rest =>
      { provider := toLower provider, modelName := joinChar '/' rest }

/-! Concrete instances used by witnesses and counterexamples. -/

/-- Shared concrete state: a task started from idle whose description contains
none of the completion-relevant keywords. -/
def tmFix : TaskManager := startTask initialTaskManager (str "fix the bug")
/-- Completed concrete state used by the C5 witness. -/
def tmDone : TaskManager := { initialTaskManager with state := TaskState.COMPLETED }
/-- Message constructor used by the C9 sample history. -/
def sampleMessage (content : String) : ConversationMessage :=
  { role := str "user", content := str content, timestamp := str "10:00:00", toolUsed := none }
/-- A 12-message history for C9. -/
def sampleHistory12 : List ConversationMessage :=
  [sampleMessage "msg01", sampleMessage "msg02", sampleMessage "msg03", sampleMessage "msg04",
   sampleMessage "msg05", sampleMessage "msg06", sampleMessage "msg07", sampleMessage "msg08",
   sampleMessage "msg09", sampleMessage "msg10", sampleMessage "msg11", sampleMessage "msg12"]
/-- Populated cache instance used by the C7 witness. -/
def oneProviderCache : ProviderCache := [(str "openai", newProvider ProviderId.openai)]

/-! Helper lemmas. -/

set_option maxRecDepth 10000

lemma startsWith_nil_right (s : Str) : startsWith s [] = true := by
  cases s <;> rfl

lemma strIncludes_singleton (s : Str) (c : Char) : strIncludes s [c] = true ↔ c ∈ s := by
  induction s with
  | nil => simp [strIncludes, startsWith]
  | cons c' cs ih =>
    show (startsWith (c' :: cs) [c] || strIncludes cs [c]) = true ↔ c ∈ c' :: cs
    have hs : startsWith (c' :: cs) [c] = (c' == c) := by
      show (c' == c && startsWith cs []) = (c' == c)
      rw [startsWith_nil_right, Bool.and_true]
    rw [hs, Bool.or_eq_true, ih, beq_iff_eq, List.mem_cons]
    constructor
    · rintro (h | h)
      · exact Or.inl h.symm
      · exact Or.inr h
    · rintro (h | h)
      · exact Or.inl h.symm
      · exact Or.inr h

lemma splitOnChar_cons (sep c : Char) (cs : Str) :
    splitOnChar sep (c :: cs) =
      if c == sep then [] :: splitOnChar sep cs
      else match splitOnChar sep cs with
           | [] => [[c]]
           | h :: t => (c :: h) :: t := rfl

lemma joinChar_single (sep : Char) (x : Str) : joinChar sep [x] = x := rfl

lemma joinChar_cons2 (sep : Char) (x y : Str) (xs : List Str) :
    joinChar sep (x :: y :: xs) = x ++ sep :: joinChar sep (y :: xs) := rfl

lemma splitOnChar_ne_nil (sep : Char) (s : Str) : splitOnChar sep s ≠ [] := by
  induction s with
  | nil => simp [splitOnChar]
  | cons c cs ih =>
    rw [splitOnChar_cons]
    rcases hr : splitOnChar sep cs with _ | ⟨hh, ht⟩
    · exact absurd hr ih
    · by_cases hc : (c == sep) = true <;> simp [hc]

lemma splitOnChar_not_mem (sep : Char) (s : Str) (h : sep ∉ s) : splitOnChar sep s = [s] := by
  induction s with
  | nil => rfl
  | cons c cs ih =>
    have hc : ¬(c == sep) = true := by
      simp only [beq_iff_eq]
      intro hEq
      exact h (hEq ▸ List.mem_cons_self c cs)
    have hcs : sep ∉ cs := fun hm => h (List.mem_cons_of_mem _ hm)
    rw [splitOnChar_cons, ih hcs]
    simp [hc]

lemma splitOnChar_append (sep : Char) (p m : Str) (h : sep ∉ p) :
    splitOnChar sep (p ++ sep :: m) = p :: splitOnChar sep m := by
  induction p with
  | nil =>
    show splitOnChar sep (sep :: m) = [] :: splitOnChar sep m
    rw [splitOnChar_cons]
    simp
  | cons c cs ih =>
    have hc : ¬(c == sep) = true := by
      simp only [beq_iff_eq]
      intro hEq
      exact h (hEq ▸ List.mem_cons_self c cs)
    have hcs : sep ∉ cs := fun hm => h (List.mem_cons_of_mem _ hm)
    show splitOnChar sep (c :: (cs ++ sep :: m)) = (c :: cs) :: splitOnChar sep m
    rw [splitOnChar_cons, ih hcs]
    simp [hc]

lemma joinChar_splitOnChar (sep : Char) (s : Str) : joinChar sep (splitOnChar sep s) = s := by
  induction s with
  | nil => rfl
  | cons c cs ih =>
    rw [splitOnChar_cons]
    rcases hr : splitOnChar sep cs with _ | ⟨hh, ht⟩
    · exact absurd hr (splitOnChar_ne_nil sep cs)
    · rw [hr] at ih
      by_cases hc : (c == sep) = true
      · simp only [hc, if_pos]
        rw [joinChar_cons2, List.nil_append, ih]
        simp only [beq_iff_eq] at hc
        rw [hc]
      · rw [if_neg (by simp [hc])]
        rcases ht with _ | ⟨t1, t2⟩
        · rw [joinChar_single]
          rw [joinChar_single] at ih
          rw [ih]
        · rw [joinChar_cons2]
          rw [joinChar_cons2] at ih
          rw [List.cons_append, ih]

lemma isTaskComplete_congr (tmA tmB : TaskManager) (r : Str)
    (hd : tmA.taskDescription = tmB.taskDescription)
    (hc : tmA.completedSteps = tmB.completedSteps) :
    isTaskComplete tmA r = isTaskComplete tmB r := by
  unfold isTaskComplete
  rw [hd, hc]

lemma processResponse_completes (tm : TaskManager) (r : Str) (t : Option Str)
    (h : isTaskComplete tm r = true) :
    (processResponse tm r t).state = TaskState.COMPLETED := by
  rcases t with _ | tname <;> by_cases hA : tm.state = TaskState.AWAITING_TOOL <;>
    simp only [processResponse, hA, if_true, if_false, ite_true, ite_false] <;>
  · split
    · simp [completeTask]
    · next hfalse =>
        exact absurd ((isTaskComplete_congr _ tm r rfl rfl).trans h) hfalse

lemma isTaskComplete_of_pattern (tm : TaskManager) (r : Str)
    (h : strIncludes (toLower r) (str "task is now complete") = true) :
    isTaskComplete tm r = true := by
  have hany : completionPatterns.any (fun pattern => strIncludes (toLower r) pattern) = true :=
    List.any_eq_true.mpr ⟨str "task is now complete", by decide, h⟩
  unfold isTaskComplete
  simp [hany]

/-- C1 counterexample: with an active task, a response containing the substring
`task is complete` does NOT transition the state to `COMPLETED` — the phrase is
not in `completionPatterns` (which holds `task complete` and
`task is now complete` but not `task is complete`), so the task stays
`IN_PROGRESS`. -/
theorem C1_counterexample :
    strIncludes (toLower (str "Task is complete")) (str "task is complete") = true ∧
    tmFix.state = TaskState.IN_PROGRESS ∧
    (processResponse tmFix (str "Task is complete") none).state = TaskState.IN_PROGRESS ∧
    (processResponse tmFix (str "Task is complete") none).state ≠ TaskState.COMPLETED :=
  ⟨by decide, by decide, by decide, by decide⟩

/-- C1 amended: for every `TaskManager` with an active task, `processResponse`
on any response containing the registered completion pattern
`task is now complete` transitions the state to `COMPLETED`, regardless of the
prior contents of `nextSteps` (and of every other field). -/
theorem C1_completion_pattern_completes (tm : TaskManager) (r : Str) (t : Option Str)
    (_hactive : tm.state = TaskState.IN_PROGRESS ∨ tm.state = TaskState.AWAITING_TOOL)
    (hr : strIncludes (toLower r) (str "task is now complete") = true) :
    (processResponse tm r t).state = TaskState.COMPLETED :=
  processResponse_completes tm r t (isTaskComplete_of_pattern tm r hr)

/-- C1 witness: the amended theorem applied at a concrete active task and
response. -/
theorem C1_witness :
    tmFix.state = TaskState.IN_PROGRESS ∧
    strIncludes (toLower (str "The task is now complete.")) (str "task is now complete") = true ∧
    (processResponse tmFix (str "The task is now complete.") none).state = TaskState.COMPLETED :=
  ⟨by decide, by decide,
   C1_completion_pattern_completes tmFix (str "The task is now complete.") none
     (Or.inl (by decide)) (by decide)⟩

/-- C2 counterexample: a response matching a weak completion phrase (`done`)
together with a continuation tool (`write_file`) DOES complete the task — the
continuation-tool match does not suppress completion. -/
theorem C2_counterexample :
    continuationTools.any (fun tool => strIncludes (str "write_file") tool) = true ∧
    completionPatterns.any (fun p => strIncludes (toLower (str "done")) p) = true ∧
    tmFix.state = TaskState.IN_PROGRESS ∧
    (processResponse tmFix (str "done") (some (str "write_file"))).state = TaskState.COMPLETED :=
  ⟨by decide, by decide, by decide, by decide⟩

/-- C2 amended: the priority is the reverse of the claim. Whenever the
completion check matches, `processResponse` completes the task and
`shouldContinueAutomatically` returns false, even when the tool just used is a
continuation tool; a continuation-tool match only triggers auto-continuation
when no completion/stopping match occurs. -/
theorem C2_completion_takes_priority (tm : TaskManager) (r : Str) (t : Str)
    (h : isTaskComplete tm r = true) :
    (processResponse tm r (some t)).state = TaskState.COMPLETED ∧
    shouldContinueAutomatically tm r (some t) = false := by
  refine ⟨processResponse_completes tm r (some t) h, ?_⟩
  simp [shouldContinueAutomatically, h]

/-- C2 witness: the amended theorem applied at a concrete completing response
and continuation tool. -/
theorem C2_witness :
    isTaskComplete tmFix (str "done") = true ∧
    (processResponse tmFix (str "done") (some (str "write_file"))).state = TaskState.COMPLETED ∧
    shouldContinueAutomatically tmFix (str "done") (some (str "write_file")) = false :=
  ⟨by decide,
   (C2_completion_takes_priority tmFix (str "done") (str "write_file") (by decide)).1,
   (C2_completion_takes_priority tmFix (str "done") (str "write_file") (by decide)).2⟩

/-- C3 counterexample: the ceilings are 20 and 3 (not 50 and 5), and three
consecutive no-tool responses complete the task although no completion or
stopping phrase is present — the no-tool counter alone completes the task. -/
theorem C3_counterexample :
    maxSteps = 20 ∧ maxResponsesWithoutTools = 3 ∧
    completionPatterns.any (fun p => strIncludes (toLower (str "working on it")) p) = false ∧
    stoppingPatterns.any (fun p => strIncludes (toLower (str "working on it")) p) = false ∧
    tmFix.state = TaskState.IN_PROGRESS ∧
    (iterProcess tmFix (str "working on it") none 2).state = TaskState.IN_PROGRESS ∧
    (iterProcess tmFix (str "working on it") none 3).state = TaskState.COMPLETED :=
  ⟨rfl, rfl, by decide, by decide, by decide, by decide, by decide⟩

/-- C3 amended: `processResponse` force-completes the task when the step
counter reaches 20, or when the consecutive no-tool counter reaches 3 — with no
completion-signal requirement on the latter. -/
theorem C3_safety_valve (tm : TaskManager) (r : Str) (t : Option Str)
    (h : maxSteps ≤ tm.stepCount + 1 ∨
         (t = none ∧ maxResponsesWithoutTools ≤ tm.lastResponseWithoutTools + 1)) :
    (processResponse tm r t).state = TaskState.COMPLETED := by
  rcases t with _ | tname
  · by_cases hA : tm.state = TaskState.AWAITING_TOOL <;>
      simp only [processResponse, hA, if_true, if_false, ite_true, ite_false] <;>
    · split
      · simp [completeTask]
      · split
        · simp [completeTask]
        · split
          · simp [completeTask]
          · next hc3 =>
            exfalso
            rcases h with hs | ⟨_, hm⟩
            · next hc1 hc2 => exact hc2 hs
            · exact hc3 hm
  · by_cases hA : tm.state = TaskState.AWAITING_TOOL <;>
      simp only [processResponse, hA, if_true, if_false, ite_true, ite_false] <;>
    · split
      · simp [completeTask]
      · split
        · simp [completeTask]
        · split
          · simp [completeTask]
          · next hc3 =>
            exfalso
            rcases h with hs | ⟨hn, _⟩
            · next hc1 hc2 => exact hc2 hs
            · cases hn

lemma updateTaskProgress_stepCount (tm : TaskManager) (r : Str) (t : Option Str) :
    (updateTaskProgress tm r t).stepCount = tm.stepCount := by
  unfold updateTaskProgress
  rcases hE : extractAccomplishment r with _ | acc
  · simp only [hE]
  · simp only [hE]
    rcases hF : tm.nextSteps.find? (fun step => strIncludes (toLower step) (toLower acc)) with _ | ms <;>
      simp only [hF]

lemma startTask_initial (desc : Str) :
    (startTask initialTaskManager desc).state = TaskState.IN_PROGRESS ∧
    (startTask initialTaskManager desc).taskDescription = desc ∧
    (startTask initialTaskManager desc).completedSteps = [] ∧
    (startTask initialTaskManager desc).toolsUsed = [] ∧
    (startTask initialTaskManager desc).stepCount = 0 ∧
    (startTask initialTaskManager desc).lastResponseWithoutTools = 0 := by
  unfold startTask analyzeTaskRequirements
  rw [if_neg (by decide : ¬ initialTaskManager.state ≠ TaskState.IDLE)]
  by_cases hc : (strIncludes (toLower desc) (str "create") &&
      (strIncludes (toLower desc) (str "project") || strIncludes (toLower desc) (str "application"))) = true <;>
    simp [hc, initialTaskManager]

/-- C5: completion and auto-continuation are never signalled simultaneously in
any `TaskManager` state (reachable or not): whenever
`getCompletionStatus` reports `isComplete`, `shouldContinueAutomatically`
returns false for every response and tool. -/
theorem C5_no_complete_and_continue (tm : TaskManager) (r : Str) (t : Option Str)
    (h : (getCompletionStatus tm).isComplete = true) :
    shouldContinueAutomatically tm r t = false := by
  unfold getCompletionStatus at h
  by_cases h1 : tm.state = TaskState.COMPLETED
  · simp [shouldContinueAutomatically, h1]
  · rw [if_neg h1] at h
    by_cases h2 : maxSteps ≤ tm.stepCount
    · by_cases h0 : tm.state ≠ TaskState.IN_PROGRESS ∧ tm.state ≠ TaskState.AWAITING_TOOL
      · simp [shouldContinueAutomatically, h0]
      · simp [shouldContinueAutomatically, h0, h2]
    · rw [if_neg h2] at h
      by_cases h3 : maxResponsesWithoutTools ≤ tm.lastResponseWithoutTools
      · by_cases h0 : tm.state ≠ TaskState.IN_PROGRESS ∧ tm.state ≠ TaskState.AWAITING_TOOL
        · simp [shouldContinueAutomatically, h0]
        · simp [shouldContinueAutomatically, h0, h3]
      · rw [if_neg h3] at h
        simp at h

/-- C5 witness: the theorem applied at a concrete completed state. -/
theorem C5_witness :
    (getCompletionStatus tmDone).isComplete = true ∧
    shouldContinueAutomatically tmDone (str "continue working") none = false :=
  ⟨by decide, C5_no_complete_and_continue tmDone (str "continue working") none (by decide)⟩

/-- C6 counterexample: an element of the previous task accumulated `nextSteps`
(`Create project directory`, placed there by `analyzeTaskRequirements`) occurs
again in the new task lists, because the new description re-derives the same
four default step strings. -/
theorem C6_counterexample :
    (startTask initialTaskManager (str "create a project")).state = TaskState.IN_PROGRESS ∧
    (str "Create project directory") ∈ (startTask initialTaskManager (str "create a project")).nextSteps ∧
    (str "Create project directory") ∈
      (startTask (startTask initialTaskManager (str "create a project"))
        (str "create an application")).nextSteps :=
  ⟨by decide, by decide, by decide⟩

/-- C6 amended: starting a new task while one is `IN_PROGRESS` discards the
previous task entirely — the result equals starting the task on a fresh
manager, so nothing is carried over: `completedSteps` and `toolsUsed` are
empty and `nextSteps` is a function of the new description alone (although the
fixed default step strings may textually coincide with old entries). -/
theorem C6_startTask_resets (tm : TaskManager) (desc : Str)
    (h : tm.state = TaskState.IN_PROGRESS) :
    startTask tm desc = startTask initialTaskManager desc ∧
    (startTask tm desc).completedSteps = [] ∧
    (startTask tm desc).toolsUsed = [] := by
  have hne : tm.state ≠ TaskState.IDLE := by rw [h]; decide
  have heq : startTask tm desc = startTask initialTaskManager desc := by
    unfold startTask
    rw [if_pos hne, if_neg (by decide : ¬ initialTaskManager.state ≠ TaskState.IDLE)]
    rfl
  refine ⟨heq, ?_, ?_⟩
  · rw [heq]
    exact (startTask_initial desc).2.2.1
  · rw [heq]
    exact (startTask_initial desc).2.2.2.1

/-- C6 witness: the amended theorem applied to an in-progress task with
accumulated state. -/
theorem C6_witness :
    (startTask initialTaskManager (str "create a project")).state = TaskState.IN_PROGRESS ∧
    (startTask (startTask initialTaskManager (str "create a project")) (str "analyze the data")) =
      startTask initialTaskManager (str "analyze the data") ∧
    (startTask (startTask initialTaskManager (str "create a project")) (str "analyze the data")).completedSteps = [] :=
  ⟨by decide,
   (C6_startTask_resets (startTask initialTaskManager (str "create a project"))
     (str "analyze the data") (by decide)).1,
   (C6_startTask_resets (startTask initialTaskManager (str "create a project"))
     (str "analyze the data") (by decide)).2.1⟩

/-- C10: `processResponse` mutates state even when no task is active — the
step counter increments on every call from any state, and from the freshly
constructed (IDLE, never-started) manager three consecutive no-tool calls
complete the task: the state goes directly from `IDLE` to `COMPLETED` and
`getCompletionStatus` then reports completion although no task was started. -/
theorem C10_idle_processing :
    (∀ (tm : TaskManager) (r : Str) (t : Option Str),
      (processResponse tm r t).stepCount = tm.stepCount + 1) ∧
    initialTaskManager.state = TaskState.IDLE ∧
    (iterProcess initialTaskManager (str "hello") none 2).state = TaskState.IDLE ∧
    (iterProcess initialTaskManager (str "hello") none 3).state = TaskState.COMPLETED ∧
    (getCompletionStatus (iterProcess initialTaskManager (str "hello") none 3)).isComplete = true := by
  refine ⟨?_, rfl, by decide, by decide, by decide⟩
  intro tm r t
  rcases t with _ | tname <;> by_cases hA : tm.state = TaskState.AWAITING_TOOL <;>
    simp only [processResponse, hA, if_true, if_false, ite_true, ite_false] <;>
  · split
    · simp [completeTask]
    · split
      · simp [completeTask]
      · split
        · simp [completeTask]
        · rw [updateTaskProgress_stepCount]

/-- C3 witness: the amended safety-valve theorem applied at both ceilings. -/
theorem C3_witness :
    maxSteps ≤ 19 + 1 ∧
    (processResponse { tmFix with stepCount := 19 } (str "keep going") (some (str "tool"))).state
      = TaskState.COMPLETED ∧
    maxResponsesWithoutTools ≤ 2 + 1 ∧
    (processResponse { tmFix with lastResponseWithoutTools := 2 } (str "keep going") none).state
      = TaskState.COMPLETED :=
  ⟨by decide,
   C3_safety_valve { tmFix with stepCount := 19 } (str "keep going") (some (str "tool"))
     (Or.inl (by decide)),
   by decide,
   C3_safety_valve { tmFix with lastResponseWithoutTools := 2 } (str "keep going") none
     (Or.inr ⟨rfl, by decide⟩)⟩

lemma isTaskComplete_workingOnIt (tm : TaskManager) (h : tm.completedSteps = []) :
    isTaskComplete tm (str "working on it") = false := by
  have hp1 : completionPatterns.any (fun p => strIncludes (toLower (str "working on it")) p) = false := by
    decide
  have hp2 : stoppingPatterns.any (fun p => strIncludes (toLower (str "working on it")) p) = false := by
    decide
  have hp3 : packageJsonReady (toLower (str "working on it")) = false := by decide
  have hp4 : mentionsRunningApp (toLower (str "working on it")) = false := by decide
  unfold isTaskComplete
  simp [hp1, hp2, hp3, hp4, h]

lemma iterProcess_succ (tm : TaskManager) (r : Str) (t : Option Str) (n : Nat) :
    iterProcess tm r t (n + 1) = processResponse (iterProcess tm r t n) r t := rfl

lemma processResponse_workingOnIt_step (tm : TaskManager)
    (h1 : tm.state = TaskState.IN_PROGRESS) (h2 : tm.completedSteps = [])
    (h3 : tm.lastResponseWithoutTools = 0) (h4 : tm.stepCount + 1 ≤ 19) :
    processResponse tm (str "working on it") (some (str "other_tool")) =
      { tm with stepCount := tm.stepCount + 1 } := by
  obtain ⟨st, d, cs, ns, tu, sc, lr⟩ := tm
  dsimp only at h1 h2 h3 h4 ⊢
  subst h1
  subst h2
  subst h3
  have h5 : ¬ (maxSteps ≤ sc + 1) := by unfold maxSteps; omega
  have hacc : extractAccomplishment (str "working on it") = none := by decide
  have hnext : extractNextSteps (str "working on it") = [] := by decide
  have hcomp : isTaskComplete
      { state := TaskState.IN_PROGRESS, taskDescription := d, completedSteps := [],
        nextSteps := ns, toolsUsed := tu, stepCount := sc + 1, lastResponseWithoutTools := 0 }
      (str "working on it") = false :=
    isTaskComplete_workingOnIt _ rfl
  simp [processResponse, hcomp, h5, hacc, hnext, updateTaskProgress, maxResponsesWithoutTools]

lemma processResponse_workingOnIt_ceiling (tm : TaskManager)
    (h1 : tm.state = TaskState.IN_PROGRESS) (h2 : tm.completedSteps = [])
    (h4 : maxSteps ≤ tm.stepCount + 1) :
    processResponse tm (str "working on it") (some (str "other_tool")) =
      { tm with state := TaskState.COMPLETED, stepCount := tm.stepCount + 1,
                lastResponseWithoutTools := 0 } := by
  obtain ⟨st, d, cs, ns, tu, sc, lr⟩ := tm
  dsimp only at h1 h2 h4 ⊢
  subst h1
  subst h2
  have hcomp : isTaskComplete
      { state := TaskState.IN_PROGRESS, taskDescription := d, completedSteps := [],
        nextSteps := ns, toolsUsed := tu, stepCount := sc + 1, lastResponseWithoutTools := 0 }
      (str "working on it") = false :=
    isTaskComplete_workingOnIt _ rfl
  simp [processResponse, hcomp, h4, completeTask]

lemma iterProcess_steady (tm : TaskManager) (n : Nat)
    (h1 : tm.state = TaskState.IN_PROGRESS) (h2 : tm.completedSteps = [])
    (h3 : tm.lastResponseWithoutTools = 0) (h4 : tm.stepCount + n ≤ 19) :
    iterProcess tm (str "working on it") (some (str "other_tool")) n =
      { tm with stepCount := tm.stepCount + n } := by
  induction n with
  | zero => rfl
  | succ k ih =>
    have hle : tm.stepCount + k ≤ 19 := by omega
    rw [iterProcess_succ, ih hle]
    rw [processResponse_workingOnIt_step { tm with stepCount := tm.stepCount + k } h1 h2 h3
      (by dsimp only; omega)]
    rw [Nat.add_assoc]

/-- C4 counterexample: with a tool used on every turn and no completion or
stopping phrase ever matching, the task is force-completed after 20 calls (not
50), and after 50 calls `getCompletionStatus` reports the generic reason
`Task marked as complete` — not a reason citing the step ceiling. -/
theorem C4_counterexample :
    completionPatterns.any (fun p => strIncludes (toLower (str "working on it")) p) = false ∧
    stoppingPatterns.any (fun p => strIncludes (toLower (str "working on it")) p) = false ∧
    (iterProcess tmFix (str "working on it") (some (str "other_tool")) 19).state
      = TaskState.IN_PROGRESS ∧
    (iterProcess tmFix (str "working on it") (some (str "other_tool")) 20).state
      = TaskState.COMPLETED ∧
    getCompletionStatus (iterProcess tmFix (str "working on it") (some (str "other_tool")) 50) =
      { isComplete := true, reason := some (str "Task marked as complete"), stepCount := 50 } ∧
    (getCompletionStatus (iterProcess tmFix (str "working on it") (some (str "other_tool")) 50)).reason
      ≠ some (str "Reached maximum steps (20)") :=
  ⟨by decide, by decide, by decide, by decide, by decide, by decide⟩

/-- C4 amended: for every starting description, after 20 consecutive
`processResponse` calls on the freshly started task in which a tool is used
each turn and the fixed response `working on it` never matches any completion
or stopping pattern, the task is force-completed at the step ceiling of 20,
and `getCompletionStatus` then reports completion with the generic reason
`Task marked as complete` (the `COMPLETED`-state branch masks the
step-ceiling reason). -/
theorem C4_step_ceiling (desc : Str) :
    (iterProcess (startTask initialTaskManager desc) (str "working on it")
        (some (str "other_tool")) 20).state = TaskState.COMPLETED ∧
    getCompletionStatus (iterProcess (startTask initialTaskManager desc) (str "working on it")
        (some (str "other_tool")) 20) =
      { isComplete := true, reason := some (str "Task marked as complete"), stepCount := 20 } := by
  obtain ⟨hst, hdesc, hcs, htu, hsc, hlr⟩ := startTask_initial desc
  have h19 : iterProcess (startTask initialTaskManager desc) (str "working on it")
      (some (str "other_tool")) 19 =
      { startTask initialTaskManager desc with
        stepCount := (startTask initialTaskManager desc).stepCount + 19 } :=
    iterProcess_steady _ 19 hst hcs hlr (by omega)
  have h20 : iterProcess (startTask initialTaskManager desc) (str "working on it")
      (some (str "other_tool")) 20 =
      { startTask initialTaskManager desc with
        state := TaskState.COMPLETED,
        stepCount := (startTask initialTaskManager desc).stepCount + 19 + 1,
        lastResponseWithoutTools := 0 } := by
    rw [iterProcess_succ, h19]
    rw [processResponse_workingOnIt_ceiling
      { startTask initialTaskManager desc with
        stepCount := (startTask initialTaskManager desc).stepCount + 19 }
      hst hcs (by dsimp only; unfold maxSteps; omega)]
  rw [h20]
  constructor
  · rfl
  · unfold getCompletionStatus
    rw [if_pos rfl]
    rw [hsc]

/-- C9: the context builder returns the empty string on an empty history; its
output depends only on the last 10 messages; and on a concrete 12-message
history the rendered block contains exactly messages 3..12, oldest first. -/
theorem C9_conversation_window :
    (∀ tm : TaskManager, buildConversationContext [] tm = []) ∧
    (∀ (history : List ConversationMessage) (tm : TaskManager),
      buildConversationContext history tm =
        buildConversationContext (history.drop (history.length - 10)) tm) ∧
    buildConversationContext sampleHistory12 initialTaskManager =
      str "\n\nCONVERSATION HISTORY:\n[10:00:00] USER: msg03\n[10:00:00] USER: msg04\n[10:00:00] USER: msg05\n[10:00:00] USER: msg06\n[10:00:00] USER: msg07\n[10:00:00] USER: msg08\n[10:00:00] USER: msg09\n[10:00:00] USER: msg10\n[10:00:00] USER: msg11\n[10:00:00] USER: msg12\n" := by
  refine ⟨fun tm => rfl, ?_, by decide⟩
  intro history tm
  rcases history with _ | ⟨m, ms⟩
  · rfl
  · have hne : ¬ ((m :: ms).length = 0) := by simp
    have hne2 : ¬ (((m :: ms).drop ((m :: ms).length - 10)).length = 0) := by
      rw [List.length_drop]
      simp only [List.length_cons]
      omega
    unfold buildConversationContext
    rw [if_neg hne, if_neg hne2]
    have hz : ((m :: ms).drop ((m :: ms).length - 10)).length - 10 = 0 := by
      rw [List.length_drop]
      omega
    rw [hz, List.drop_zero]

lemma cacheLookup_mem (cache : ProviderCache) (k : Str) (v : AIProvider)
    (h : cacheLookup cache k = some v) : (k, v) ∈ cache := by
  induction cache with
  | nil => cases h
  | cons kv rest ih =>
    obtain ⟨k1, v1⟩ := kv
    unfold cacheLookup at h
    by_cases hk : k1 = k
    · rw [if_pos hk] at h
      injection h with h
      subst hk
      subst h
      exact List.mem_cons_self _ _
    · rw [if_neg hk] at h
      exact List.mem_cons_of_mem _ (ih h)

/-- C7: a successful `getProvider` call caches its handle, so an immediately
repeated call with the same name (in any letter case) returns the identical
handle and leaves the cache unchanged; for a name with no registered module the
call always fails with the `Unsupported AI provider` error (recoverable flag
false) and leaves the cache unchanged; and `getProvider` preserves the
only-registered-names cache invariant that the second part relies on. -/
theorem C7_provider_cache :
    (∀ (cache : ProviderCache) (n1 n2 : Str) (p : AIProvider) (cache2 : ProviderCache),
      toLower n1 = toLower n2 →
      getProvider cache n1 = (Except.ok p, cache2) →
      getProvider cache2 n2 = (Except.ok p, cache2)) ∧
    (∀ (cache : ProviderCache) (name : Str),
      CacheRegistered cache →
      providerModules (toLower name) = none →
      getProvider cache name =
        (Except.error { message := str "Unsupported AI provider: " ++ name,
                        provider := name, recoverable := false }, cache)) ∧
    (∀ (cache : ProviderCache) (name : Str),
      CacheRegistered cache → CacheRegistered (getProvider cache name).2) := by
  refine ⟨?_, ?_, ?_⟩
  · intro cache n1 n2 p c2 hlow hcall
    simp only [getProvider] at hcall ⊢
    rcases hl : cacheLookup cache (toLower n1) with _ | q
    · rw [hl] at hcall
      rcases hm : providerModules (toLower n1) with _ | id
      · rw [hm] at hcall
        simp at hcall
      · rw [hm] at hcall
        simp only [Prod.mk.injEq] at hcall
        obtain ⟨hp, hc⟩ := hcall
        injection hp with hp
        subst hc
        rw [← hlow]
        have hfind : cacheLookup ((toLower n1, newProvider id) :: cache) (toLower n1) =
            some (newProvider id) := by
          unfold cacheLookup
          rw [if_pos rfl]
        rw [hfind, hp]
    · rw [hl] at hcall
      simp only [Prod.mk.injEq] at hcall
      obtain ⟨hp, hc⟩ := hcall
      injection hp with hp
      subst hc
      rw [← hlow, hl, hp]
  · intro cache name hreg hmod
    simp only [getProvider]
    rcases hl : cacheLookup cache (toLower name) with _ | q
    · rw [hmod]
    · have hmem := hreg _ (cacheLookup_mem _ _ _ hl)
      rw [hmod] at hmem
      cases hmem
  · intro cache name hreg
    simp only [getProvider]
    rcases hl : cacheLookup cache (toLower name) with _ | q
    · rcases hm : providerModules (toLower name) with _ | id
      · simpa using hreg
      · intro kv hkv
        rcases List.mem_cons.mp hkv with hkv1 | hkv2
        · subst hkv1
          rw [hm]
          rfl
        · exact hreg _ hkv2
    · simpa using hreg

/-- C7 witness: the theorem applied at concrete names and caches. -/
theorem C7_witness :
    toLower (str "OpenAI") = toLower (str "openai") ∧
    getProvider [] (str "OpenAI") = (Except.ok (newProvider ProviderId.openai), oneProviderCache) ∧
    getProvider oneProviderCache (str "openai")
      = (Except.ok (newProvider ProviderId.openai), oneProviderCache) ∧
    providerModules (toLower (str "mystery")) = none ∧
    getProvider [] (str "mystery") =
      (Except.error { message := str "Unsupported AI provider: " ++ str "mystery",
                      provider := str "mystery", recoverable := false }, []) :=
  ⟨rfl, rfl,
   C7_provider_cache.1 [] (str "OpenAI") (str "openai") (newProvider ProviderId.openai)
     oneProviderCache rfl rfl,
   rfl,
   C7_provider_cache.2.1 [] (str "mystery") (fun kv h => absurd h (List.not_mem_nil kv)) rfl⟩

lemma parseModelString_append (p m : Str) (h : strIncludes p (str "/") = false) :
    parseModelString (p ++ str "/" ++ m) = { provider := toLower p, modelName := m } := by
  have hslash : str "/" = ['/'] := rfl
  have hnp : ('/' : Char) ∉ p := by
    intro hm
    rw [hslash, (strIncludes_singleton p '/').mpr hm] at h
    cases h
  have happ : p ++ str "/" ++ m = p ++ '/' :: m := by
    rw [hslash, List.append_assoc, List.singleton_append]
  rw [happ]
  have hinc : strIncludes (p ++ '/' :: m) (str "/") = true := by
    rw [hslash]
    exact (strIncludes_singleton _ '/').mpr (List.mem_append.mpr (Or.inr (List.mem_cons_self _ _)))
  unfold parseModelString
  rw [hinc]
  simp only [Bool.not_true, Bool.false_eq_true, if_false]
  rw [splitOnChar_append '/' p m hnp]
  show ({ provider := toLower p, modelName := joinChar '/' (splitOnChar '/' m) } : ParsedModel) =
    { provider := toLower p, modelName := m }
  rw [joinChar_splitOnChar]

/-- C8: `parseModelString` is total; without a separator it falls back to the
`openai` provider with the whole string as model name; for `p/m` it lowercases
the provider and keeps the remainder, splitting on the first separator only,
so `p/m1/m2` yields model name `m1/m2`. -/
theorem C8_parseModelIdentifier :
    (∀ s : Str, strIncludes s (str "/") = false →
      parseModelString s = { provider := str "openai", modelName := s }) ∧
    (∀ p m : Str, strIncludes p (str "/") = false →
      parseModelString (p ++ str "/" ++ m) = { provider := toLower p, modelName := m }) ∧
    (∀ p m1 m2 : Str, strIncludes p (str "/") = false →
      parseModelString (p ++ str "/" ++ m1 ++ str "/" ++ m2) =
        { provider := toLower p, modelName := m1 ++ str "/" ++ m2 }) := by
  refine ⟨?_, fun p m h => parseModelString_append p m h, ?_⟩
  · intro s h
    unfold parseModelString
    rw [h]
    rfl
  · intro p m1 m2 h
    have hassoc : p ++ str "/" ++ m1 ++ str "/" ++ m2 = p ++ str "/" ++ (m1 ++ str "/" ++ m2) := by
      simp [List.append_assoc]
    rw [hassoc, parseModelString_append p _ h]

/-- C8 witness: the theorem applied at concrete model strings. -/
theorem C8_witness :
    strIncludes (str "gpt-4o") (str "/") = false ∧
    parseModelString (str "gpt-4o") = { provider := str "openai", modelName := str "gpt-4o" } ∧
    strIncludes (str "Anthropic") (str "/") = false ∧
    parseModelString (str "Anthropic" ++ str "/" ++ str "claude-3") =
      { provider := toLower (str "Anthropic"), modelName := str "claude-3" } ∧
    parseModelString (str "openrouter" ++ str "/" ++ str "meta" ++ str "/" ++ str "llama-3") =
      { provider := toLower (str "openrouter"), modelName := str "meta" ++ str "/" ++ str "llama-3" } :=
  ⟨by decide,
   C8_parseModelIdentifier.1 (str "gpt-4o") (by decide),
   by decide,
   C8_parseModelIdentifier.2.1 (str "Anthropic") (str "claude-3") (by decide),
   C8_parseModelIdentifier.2.2 (str "openrouter") (str "meta") (str "llama-3") (by decide)⟩
end LocalAgent

